import Mathlib

/-!
Shallow embedding of the HiveCloud cloud functions (functions/index.js).

Firestore documents are modelled as Lean structures with `Option` fields for
fields that may be absent (JS `undefined`), timestamps as natural numbers
(millisecond values, compared through `toMillis` in the source), collections
as lists of documents, and JS floating point numbers as rationals.
A partial update object passed to `transaction.update` is modelled by
`ChatroomUpdate`, whose `Option` fields record which fields the object holds;
`transaction.set` replaces the whole document, `transaction.update` merges
field by field.
-/

namespace HiveCloud

/-- A chat message document in `chatrooms/{chatroomUid}/messages`. -/
structure Message where
  sender_uid : String
  receiver_uid : String
  message_text : String
  timestamp : Nat
  isRead : Bool
deriving DecidableEq, Repr

/-- A chatroom summary document in `userChatrooms/{userUid}/chatroomsOfUser`. -/
structure Chatroom where
  secondUserUid : String
  secondUserName : String
  secondUserPicUrl : String
  lastMessageText : Option String
  lastMessageTimestamp : Option Nat
  newMessageCount : Option Nat
deriving DecidableEq, Repr

/-- The JS object built by the chatroom updaters before writing; `Option`
fields record which fields the object carries. -/
structure ChatroomUpdate where
  secondUserUid : String
  secondUserName : String
  secondUserPicUrl : String
  lastMessageText : Option String
  lastMessageTimestamp : Option Nat
  newMessageCount : Option Nat
deriving DecidableEq, Repr

/-- `transaction.set`: the document becomes exactly the written object. -/
def applySet (u : ChatroomUpdate) : Chatroom :=
  ⟨u.secondUserUid, u.secondUserName, u.secondUserPicUrl,
   u.lastMessageText, u.lastMessageTimestamp, u.newMessageCount⟩

/-- `transaction.update`: fields present in the object overwrite the stored
document, absent fields are kept. -/
def applyUpdate (c : Chatroom) (u : ChatroomUpdate) : Chatroom where
  secondUserUid := u.secondUserUid
  secondUserName := u.secondUserName
  secondUserPicUrl := u.secondUserPicUrl
  lastMessageText :=
    match u.lastMessageText with
    | some t => some t
    | none => c.lastMessageText
  lastMessageTimestamp :=
    match u.lastMessageTimestamp with
    | some t => some t
    | none => c.lastMessageTimestamp
  newMessageCount :=
    match u.newMessageCount with
    | some n => some n
    | none => c.newMessageCount

/-- index.js line 911: order-independent chatroom key for a pair of users. -/
def getChatroomUid (senderUid receiverUid : String) : String :=
  if senderUid < receiverUid then senderUid ++ "_" ++ receiverUid
  else receiverUid ++ "_" ++ senderUid

/-- index.js line 915: absent new message count defaults to 0. -/
def getNewMessageCount (tempNewMessageCount : Option Nat) : Nat :=
  match tempNewMessageCount with
  | some n => n
  | none => 0

/-- index.js line 923: the properties every chatroom update carries. -/
def getUpdatedChatroom (secondUserUid secondUserName secondUserPicUrl : String) :
    ChatroomUpdate :=
  ⟨secondUserUid, secondUserName, secondUserPicUrl, none, none, none⟩

/-- index.js line 932: add the last message fields to an update object. -/
def updateChatroomLastMessage (chatroom : ChatroomUpdate) (messageText : String)
    (messageTimestamp : Nat) : ChatroomUpdate :=
  { chatroom with
    lastMessageText := some messageText
    lastMessageTimestamp := some messageTimestamp }

/-- index.js line 961: query for the unread messages of the receiver in a
chatroom, evaluated against the chatroom messages collection. -/
def getReceiverChatroomUnreadMessages (messages : List Message)
    (receiverUid : String) : List Message :=
  messages.filter (fun m => m.isRead == false && m.receiver_uid == receiverUid)

/-- Result of one chatroom updater run: the document it leaves behind and
whether a write (set or update) was issued. -/
structure UpdateResult where
  chatroom : Chatroom
  wrote : Bool
deriving DecidableEq, Repr

/-- index.js line 971: sender side chatroom update on message creation. -/
def getUpdateSenderChatroomOnCreate (receiverUid receiverName receiverUserPicUrl : String)
    (messageTimestamp : Nat) (messageText : String)
    (senderChatroom : Option Chatroom) : UpdateResult :=
  let updatedSenderChatroom :=
    updateChatroomLastMessage (getUpdatedChatroom receiverUid receiverName receiverUserPicUrl)
      messageText messageTimestamp
  match senderChatroom with
  | none => ⟨applySet updatedSenderChatroom, true⟩
  | some doc =>
    match doc.lastMessageTimestamp with
    | none => ⟨applyUpdate doc updatedSenderChatroom, true⟩
    | some cur =>
      if messageTimestamp > cur then ⟨applyUpdate doc updatedSenderChatroom, true⟩
      else ⟨doc, false⟩

/-- index.js line 1016: receiver side chatroom update on message creation.
`messages` is the chatroom messages collection seen by the transaction. -/
def getUpdateReceiverChatroomOnCreate (senderUid senderName senderUserPicUrl : String)
    (receiverUid : String) (messageTimestamp : Nat) (messageText : String)
    (messages : List Message) (receiverChatroom : Option Chatroom) : UpdateResult :=
  let currentLastMessageTimestamp : Option Nat :=
    match receiverChatroom with
    | some c => c.lastMessageTimestamp
    | none => none
  let currentNewMessageCount : Option Nat :=
    match receiverChatroom with
    | some c => c.newMessageCount
    | none => some 0
  let unreadMessageCount := (getReceiverChatroomUnreadMessages messages receiverUid).length
  let isCountUpdated : Bool := some unreadMessageCount != currentNewMessageCount
  let isLastMessageUpdated : Bool :=
    match currentLastMessageTimestamp with
    | none => true
    | some cur => messageTimestamp > cur
  let u0 := getUpdatedChatroom senderUid senderName senderUserPicUrl
  let u1 := if isCountUpdated then { u0 with newMessageCount := some unreadMessageCount } else u0
  let u2 := if isLastMessageUpdated then updateChatroomLastMessage u1 messageText messageTimestamp
            else u1
  match receiverChatroom with
  | none => ⟨applySet u2, true⟩
  | some c =>
    if isCountUpdated || isLastMessageUpdated then ⟨applyUpdate c u2, true⟩
    else ⟨c, false⟩

/-- Result of the message-marked-as-read handler transaction: the document it
leaves, whether the unread query ran, and whether a write was issued. -/
structure OnUpdateResult where
  chatroom : Chatroom
  queried : Bool
  wrote : Bool
deriving DecidableEq, Repr

/-- index.js line 1087: receiver side chatroom update when a message is
marked as read. -/
def getUpdateReceiverChatroomOnUpdate (receiverUid : String)
    (messages : List Message) (receiverChatroom : Chatroom) : OnUpdateResult :=
  let currentReceiverNewMessageCount := getNewMessageCount receiverChatroom.newMessageCount
  if currentReceiverNewMessageCount == 0 then ⟨receiverChatroom, false, false⟩
  else
    let unreadMessageCount := (getReceiverChatroomUnreadMessages messages receiverUid).length
    if unreadMessageCount != currentReceiverNewMessageCount then
      ⟨{ receiverChatroom with newMessageCount := some unreadMessageCount }, true, true⟩
    else ⟨receiverChatroom, true, false⟩

/-- A review document in `reviews/{userUid_offerUid}/reviewsOfOffer`.
Ratings are JS numbers, modelled as rationals. -/
structure Review where
  rating : ℚ
  authorName : String
  authorUserPicUrl : String
  text : String
  timestamp : Nat
deriving DecidableEq, Repr

/-- One entry of the `offerRatingList` array on a provider user document. -/
structure OfferRating where
  offer_uid : String
  offer_rating : ℚ
  offer_review_count : Nat
  offer_last_review_author_name : String
  offer_last_review_author_pic : String
  offer_last_review_text : String
  offer_last_review_timestamp : Nat
deriving DecidableEq, Repr

/-- JS `Array.prototype.findIndex`, as an optional index. -/
def findIndex (p : α → Bool) : List α → Option Nat
  | [] => none
  | a :: t => if p a then some 0 else (findIndex p t).map (· + 1)

/-- index.js line 1213: rebuild the offer rating list entry of `offerUid`
from the full review snapshot (ordered newest first, per the
`orderBy timestamp desc` query of index.js line 1204). `offerRatingList` is
the `offerRatingList` field of the provider user, absent meaning no list. -/
def recalculateOfferRatings (snapshot : List Review)
    (offerRatingList : Option (List OfferRating)) (offerUid : String) : List OfferRating :=
  let offerRatings :=
    match offerRatingList with
    | none => []
    | some l => l
  let idx := findIndex (fun item => item.offer_uid == offerUid) offerRatings
  match snapshot with
  | [] =>
    match idx with
    | some index => offerRatings.eraseIdx index
    | none => offerRatings
  | latestReview :: rest =>
    let newReviewCount := rest.length + 1
    let ratingSum := ((latestReview :: rest).map Review.rating).sum
    let averageRating := ratingSum / (newReviewCount : ℚ)
    match idx with
    | some index =>
      match offerRatings[index]? with
      | some offerRating =>
        offerRatings.set index
          { offerRating with
            offer_rating := averageRating
            offer_review_count := newReviewCount
            offer_last_review_author_name := latestReview.authorName
            offer_last_review_author_pic := latestReview.authorUserPicUrl
            offer_last_review_text := latestReview.text
            offer_last_review_timestamp := latestReview.timestamp }
      | none => offerRatings
    | none =>
      offerRatings ++
        [⟨offerUid, averageRating, newReviewCount, latestReview.authorName,
          latestReview.authorUserPicUrl, latestReview.text, latestReview.timestamp⟩]

/-- index.js line 579. -/
def deleteCollectionBatchSize : Nat := 100

/-- index.js line 1303: one run of the batched recursive delete over a
collection (modelled as the list of its documents in query order).
Returns the number of queries issued and the remaining documents. -/
def deleteQueryBatch (batchSize : Nat) (coll : List α) : Nat × List α :=
  if h : (coll.take batchSize).length = 0 then (1, coll)
  else
    let rest := deleteQueryBatch batchSize (coll.drop batchSize)
    (rest.1 + 1, rest.2)
termination_by coll.length
decreasing_by
  simp only [List.length_take] at h
  simp only [List.length_drop]
  omega

/-- index.js line 1294: delete a whole collection in batches. -/
def deleteCollection (coll : List α) (batchSize : Nat) : Nat × List α :=
  deleteQueryBatch batchSize coll

/-- Modelled from the spec (section 4.5 step 3), for comparison only: a
variant of the batched delete that treats a batch shorter than the requested
batch size as terminal after deleting that batch. -/
def deleteQueryBatchShortTerminal (batchSize : Nat) (coll : List α) : Nat × List α :=
  if h : (coll.take batchSize).length = 0 then (1, coll)
  else if (coll.take batchSize).length < batchSize then (1, coll.drop batchSize)
  else
    let rest := deleteQueryBatchShortTerminal batchSize (coll.drop batchSize)
    (rest.1 + 1, rest.2)
termination_by coll.length
decreasing_by
  simp only [List.length_take] at h
  simp only [List.length_drop]
  omega

/-- index.js line 875: on deletion of one chatroom-of-user document, delete
the shared messages collection only when the counterpart user document does
not exist. `usersExist` is the users collection membership at the re-read,
`messages` the shared messages collection. Returns the remaining messages
and whether the delete was issued. -/
def onChatroomOfUserDelete (deletedChatroom : Chatroom)
    (usersExist : String → Bool) (messages : List Message) : List Message × Bool :=
  let secondUserUid := deletedChatroom.secondUserUid
  if usersExist secondUserUid then (messages, false)
  else ((deleteCollection messages deleteCollectionBatchSize).2, true)

/-- The Firestore write issued by the presence handler. -/
structure UserStatusWrite where
  is_online : Bool
  last_seen : Nat
deriving DecidableEq, Repr

/-- index.js line 781: presence change handler; returns the write it issues,
if any. `oldStatus` is the previous Realtime Database value, unread by the
code; `now` is `Date.now()`. -/
def onUserStatusChange (oldStatus newStatus : Bool) (now : Nat) : Option UserStatusWrite :=
  if newStatus == true then none
  else some ⟨false, now⟩

/-! ## Helper lemmas -/

/-- Closed form of the sender side updater. -/
theorem sender_onCreate_eq (receiverUid receiverName receiverUserPicUrl : String)
    (ts : Nat) (text : String) (croom : Option Chatroom) :
    getUpdateSenderChatroomOnCreate receiverUid receiverName receiverUserPicUrl ts text croom =
      match croom with
      | none => ⟨⟨receiverUid, receiverName, receiverUserPicUrl, some text, some ts, none⟩, true⟩
      | some c =>
        match c.lastMessageTimestamp with
        | none =>
          ⟨⟨receiverUid, receiverName, receiverUserPicUrl, some text, some ts,
            c.newMessageCount⟩, true⟩
        | some t =>
          if t < ts then
            ⟨⟨receiverUid, receiverName, receiverUserPicUrl, some text, some ts,
              c.newMessageCount⟩, true⟩
          else ⟨c, false⟩ := by
  cases croom with
  | none => rfl
  | some c =>
    cases h : c.lastMessageTimestamp with
    | none =>
      simp only [getUpdateSenderChatroomOnCreate, h]
      rfl
    | some t =>
      simp only [getUpdateSenderChatroomOnCreate, h, gt_iff_lt]
      by_cases hlt : t < ts
      · simp only [hlt, if_true]
        rfl
      · simp only [hlt, if_false]

/-- Closed form of the receiver side updater. -/
theorem receiver_onCreate_eq (senderUid senderName senderUserPicUrl receiverUid : String)
    (ts : Nat) (text : String) (msgs : List Message) (croom : Option Chatroom) :
    getUpdateReceiverChatroomOnCreate senderUid senderName senderUserPicUrl receiverUid
        ts text msgs croom =
      (match croom with
      | none =>
        ⟨⟨senderUid, senderName, senderUserPicUrl, some text, some ts,
          if (getReceiverChatroomUnreadMessages msgs receiverUid).length = 0 then none
          else some (getReceiverChatroomUnreadMessages msgs receiverUid).length⟩, true⟩
      | some c =>
        let isCount : Bool :=
          some (getReceiverChatroomUnreadMessages msgs receiverUid).length != c.newMessageCount
        let isLast : Bool :=
          match c.lastMessageTimestamp with
          | none => true
          | some t => t < ts
        if isCount || isLast then
          ⟨⟨senderUid, senderName, senderUserPicUrl,
            if isLast then some text else c.lastMessageText,
            if isLast then some ts else c.lastMessageTimestamp,
            if isCount then some (getReceiverChatroomUnreadMessages msgs receiverUid).length
            else c.newMessageCount⟩, true⟩
        else ⟨c, false⟩) := by
  cases croom with
  | none =>
    simp only [getUpdateReceiverChatroomOnCreate, getUpdatedChatroom,
      updateChatroomLastMessage, applySet]
    by_cases hu : (getReceiverChatroomUnreadMessages msgs receiverUid).length = 0
    · simp [hu]
    · simp [hu, bne_iff_ne]
  | some c =>
    simp only [getUpdateReceiverChatroomOnCreate, getUpdatedChatroom,
      updateChatroomLastMessage, applyUpdate, gt_iff_lt]
    cases hts : c.lastMessageTimestamp with
    | none =>
      by_cases hc : (some (getReceiverChatroomUnreadMessages msgs receiverUid).length
          != c.newMessageCount) = true
      · simp [hc]
      · simp [hc]
    | some t =>
      by_cases hc : (some (getReceiverChatroomUnreadMessages msgs receiverUid).length
          != c.newMessageCount) = true
      · by_cases hlt : t < ts
        · simp [hc, hlt]
        · simp [hc, hlt]
      · by_cases hlt : t < ts
        · simp [hc, hlt]
        · simp [hc, hlt]

/-- When the `!=` test is false, the stored count equals the fresh count. -/
theorem count_eq_of_bne_false {u : Nat} {o : Option Nat}
    (h : ¬ ((some u != o) = true)) : o = some u := by
  simp only [bne_iff_ne, ne_eq, not_not] at h
  exact h.symm

/-! ## Claims -/

/-- C1: after a successful run of the receiver side chatroom updater for a
new message, the stored `newMessageCount` (absent read as 0) equals the
number of messages in the chatroom messages collection with
`receiver_uid == receiver` and `isRead == false`, counted in the same
transaction snapshot. -/
theorem C1_receiver_count_matches_ground_truth
    (senderUid senderName senderUserPicUrl receiverUid : String)
    (ts : Nat) (text : String) (msgs : List Message) (croom : Option Chatroom) :
    getNewMessageCount
      (getUpdateReceiverChatroomOnCreate senderUid senderName senderUserPicUrl receiverUid
        ts text msgs croom).chatroom.newMessageCount
      = (getReceiverChatroomUnreadMessages msgs receiverUid).length := by
  rw [receiver_onCreate_eq]
  cases croom with
  | none =>
    by_cases hu : (getReceiverChatroomUnreadMessages msgs receiverUid).length = 0
    · simp [hu, getNewMessageCount]
    · simp [hu, getNewMessageCount]
  | some c =>
    by_cases hc : (some (getReceiverChatroomUnreadMessages msgs receiverUid).length
        != c.newMessageCount) = true
    · simp [hc, getNewMessageCount]
    · have hcount := count_eq_of_bne_false hc
      by_cases hl : (match c.lastMessageTimestamp with
          | none => true
          | some t => decide (t < ts)) = true
      · simp [hc, hl, hcount, getNewMessageCount]
      · simp [hc, hl, hcount, getNewMessageCount]

/-- C10: when the stored `newMessageCount` is 0 (or absent, defaulted to 0),
the message-marked-as-read transaction issues no ground truth query and no
write, leaving the chatroom document unchanged, whatever the actual unread
messages are. -/
theorem C10_zero_count_no_query_no_write (receiverUid : String)
    (msgs : List Message) (c : Chatroom)
    (h : getNewMessageCount c.newMessageCount = 0) :
    getUpdateReceiverChatroomOnUpdate receiverUid msgs c = ⟨c, false, false⟩ := by
  unfold getUpdateReceiverChatroomOnUpdate
  simp [h]

/-- Witness for C10: a chatroom with an absent count and two actually unread
ground truth messages is left untouched, with no query issued. -/
theorem C10_zero_count_no_query_no_write_witness :
    getNewMessageCount (none : Option Nat) = 0
    ∧ (getReceiverChatroomUnreadMessages
        [⟨"s", "r", "hi", 1, false⟩, ⟨"s", "r", "yo", 2, false⟩] "r").length = 2
    ∧ getUpdateReceiverChatroomOnUpdate "r"
        [⟨"s", "r", "hi", 1, false⟩, ⟨"s", "r", "yo", 2, false⟩]
        ⟨"s", "Sam", "pic", some "hi", some 1, none⟩
      = ⟨⟨"s", "Sam", "pic", some "hi", some 1, none⟩, false, false⟩ :=
  ⟨rfl, by decide,
   C10_zero_count_no_query_no_write "r"
     [⟨"s", "r", "hi", 1, false⟩, ⟨"s", "r", "yo", 2, false⟩]
     ⟨"s", "Sam", "pic", some "hi", some 1, none⟩ rfl⟩

/-- C9: the presence handler writes `is_online == false` together with a
last seen timestamp exactly when the new presence value is offline, and
performs no write when the new value is online; under the update trigger
(old and new differ) a write happens exactly on the transition to offline. -/
theorem C9_presence_actionable_only_offline (old new : Bool) (now : Nat)
    (h : old ≠ new) :
    (new = false → onUserStatusChange old new now = some ⟨false, now⟩)
    ∧ (new = true → onUserStatusChange old new now = none)
    ∧ ((onUserStatusChange old new now).isSome ↔ (old = true ∧ new = false)) := by
  cases old <;> cases new
  · exact absurd rfl h
  · simp [onUserStatusChange]
  · simp [onUserStatusChange]
  · exact absurd rfl h

/-- Witness for C9: the transition from online to offline at time 7. -/
theorem C9_presence_actionable_only_offline_witness :
    onUserStatusChange true false 7 = some ⟨false, 7⟩
    ∧ ((onUserStatusChange true false 7).isSome ↔ (true = true ∧ false = false)) :=
  have h := C9_presence_actionable_only_offline true false 7 (by decide)
  ⟨h.1 rfl, h.2.2⟩

/-- Second sender side application with the same message performs no write. -/
theorem sender_second_no_write (receiverUid receiverName receiverUserPicUrl : String)
    (ts : Nat) (text : String) (croom : Option Chatroom) :
    getUpdateSenderChatroomOnCreate receiverUid receiverName receiverUserPicUrl ts text
        (some (getUpdateSenderChatroomOnCreate receiverUid receiverName receiverUserPicUrl
          ts text croom).chatroom)
      = ⟨(getUpdateSenderChatroomOnCreate receiverUid receiverName receiverUserPicUrl
          ts text croom).chatroom, false⟩ := by
  simp only [sender_onCreate_eq]
  cases croom with
  | none => simp
  | some c =>
    cases h : c.lastMessageTimestamp with
    | none => simp [h]
    | some t =>
      by_cases hlt : t < ts
      · simp [h, hlt]
      · simp [h, hlt]

/-- Second receiver side application with the same message and the same
messages snapshot: no write, except that a chatroom first created with zero
unread messages gets its absent count materialized as 0. -/
theorem receiver_second_application (senderUid senderName senderUserPicUrl receiverUid : String)
    (ts : Nat) (text : String) (msgs : List Message) (croom : Option Chatroom) :
    getUpdateReceiverChatroomOnCreate senderUid senderName senderUserPicUrl receiverUid
        ts text msgs
        (some (getUpdateReceiverChatroomOnCreate senderUid senderName senderUserPicUrl
          receiverUid ts text msgs croom).chatroom)
      = (if croom = none ∧ (getReceiverChatroomUnreadMessages msgs receiverUid).length = 0
         then ⟨{ (getUpdateReceiverChatroomOnCreate senderUid senderName senderUserPicUrl
                  receiverUid ts text msgs croom).chatroom with newMessageCount := some 0 }, true⟩
         else ⟨(getUpdateReceiverChatroomOnCreate senderUid senderName senderUserPicUrl
                  receiverUid ts text msgs croom).chatroom, false⟩) := by
  simp only [receiver_onCreate_eq]
  cases croom with
  | none =>
    by_cases hu : (getReceiverChatroomUnreadMessages msgs receiverUid).length = 0
    · simp [hu]
    · simp [hu]
  | some c =>
    cases hcl : c.lastMessageTimestamp with
    | none =>
      by_cases hc1 : (some (getReceiverChatroomUnreadMessages msgs receiverUid).length
          != c.newMessageCount) = true
      · simp [hcl, hc1]
      · simp [hcl, hc1, count_eq_of_bne_false hc1]
    | some t =>
      by_cases hlt : t < ts
      · by_cases hc1 : (some (getReceiverChatroomUnreadMessages msgs receiverUid).length
            != c.newMessageCount) = true
        · simp [hcl, hlt, hc1]
        · simp [hcl, hlt, hc1, count_eq_of_bne_false hc1]
      · by_cases hc1 : (some (getReceiverChatroomUnreadMessages msgs receiverUid).length
            != c.newMessageCount) = true
        · simp [hcl, hlt, hc1, count_eq_of_bne_false]
        · simp [hcl, hlt, hc1, count_eq_of_bne_false hc1]

/-- C2 counterexample: with an empty unread set (the message was already
read) and no prior receiver chatroom, the second application of the receiver
side updater with the same message does issue a write and does change the
chatroom document (it materializes the absent count as 0). -/
theorem C2_counterexample :
    (getUpdateReceiverChatroomOnCreate "s" "Sam" "pic" "r" 5 "hi"
        [⟨"s", "r", "hi", 5, true⟩]
        (some (getUpdateReceiverChatroomOnCreate "s" "Sam" "pic" "r" 5 "hi"
          [⟨"s", "r", "hi", 5, true⟩] none).chatroom)).wrote = true
    ∧ (getUpdateReceiverChatroomOnCreate "s" "Sam" "pic" "r" 5 "hi"
        [⟨"s", "r", "hi", 5, true⟩]
        (some (getUpdateReceiverChatroomOnCreate "s" "Sam" "pic" "r" 5 "hi"
          [⟨"s", "r", "hi", 5, true⟩] none).chatroom)).chatroom
      ≠ (getUpdateReceiverChatroomOnCreate "s" "Sam" "pic" "r" 5 "hi"
          [⟨"s", "r", "hi", 5, true⟩] none).chatroom := by
  constructor
  · decide
  · decide

/-- C2 (amended): applying the updaters a second time with the same message,
immediately after a successful first application, never double counts the
unread counter and never regresses the last message fields; the sender side
performs no write at all, and the receiver side performs no write except
when the first application created the chatroom with zero unread messages,
in which case the only change is that the absent `newMessageCount` is
written as its default value 0. -/
theorem C2_second_application_amended
    (senderUid senderName senderUserPicUrl receiverUid receiverName receiverUserPicUrl : String)
    (ts : Nat) (text : String) (msgs : List Message)
    (senderCroom receiverCroom : Option Chatroom) :
    getUpdateSenderChatroomOnCreate receiverUid receiverName receiverUserPicUrl ts text
        (some (getUpdateSenderChatroomOnCreate receiverUid receiverName receiverUserPicUrl
          ts text senderCroom).chatroom)
      = ⟨(getUpdateSenderChatroomOnCreate receiverUid receiverName receiverUserPicUrl
          ts text senderCroom).chatroom, false⟩
    ∧ getUpdateReceiverChatroomOnCreate senderUid senderName senderUserPicUrl receiverUid
        ts text msgs
        (some (getUpdateReceiverChatroomOnCreate senderUid senderName senderUserPicUrl
          receiverUid ts text msgs receiverCroom).chatroom)
      = (if receiverCroom = none
            ∧ (getReceiverChatroomUnreadMessages msgs receiverUid).length = 0
         then ⟨{ (getUpdateReceiverChatroomOnCreate senderUid senderName senderUserPicUrl
                  receiverUid ts text msgs receiverCroom).chatroom
                  with newMessageCount := some 0 }, true⟩
         else ⟨(getUpdateReceiverChatroomOnCreate senderUid senderName senderUserPicUrl
                  receiverUid ts text msgs receiverCroom).chatroom, false⟩)
    ∧ getNewMessageCount
        (getUpdateReceiverChatroomOnCreate senderUid senderName senderUserPicUrl receiverUid
          ts text msgs
          (some (getUpdateReceiverChatroomOnCreate senderUid senderName senderUserPicUrl
            receiverUid ts text msgs receiverCroom).chatroom)).chatroom.newMessageCount
      = getNewMessageCount
        (getUpdateReceiverChatroomOnCreate senderUid senderName senderUserPicUrl receiverUid
          ts text msgs receiverCroom).chatroom.newMessageCount
    ∧ (getUpdateReceiverChatroomOnCreate senderUid senderName senderUserPicUrl receiverUid
        ts text msgs
        (some (getUpdateReceiverChatroomOnCreate senderUid senderName senderUserPicUrl
          receiverUid ts text msgs receiverCroom).chatroom)).chatroom.lastMessageText
      = (getUpdateReceiverChatroomOnCreate senderUid senderName senderUserPicUrl receiverUid
          ts text msgs receiverCroom).chatroom.lastMessageText
    ∧ (getUpdateReceiverChatroomOnCreate senderUid senderName senderUserPicUrl receiverUid
        ts text msgs
        (some (getUpdateReceiverChatroomOnCreate senderUid senderName senderUserPicUrl
          receiverUid ts text msgs receiverCroom).chatroom)).chatroom.lastMessageTimestamp
      = (getUpdateReceiverChatroomOnCreate senderUid senderName senderUserPicUrl receiverUid
          ts text msgs receiverCroom).chatroom.lastMessageTimestamp := by
  refine ⟨sender_second_no_write receiverUid receiverName receiverUserPicUrl ts text senderCroom,
    receiver_second_application senderUid senderName senderUserPicUrl receiverUid ts text msgs
      receiverCroom, ?_, ?_, ?_⟩ <;>
  · rw [receiver_second_application]
    by_cases hif : receiverCroom = none
        ∧ (getReceiverChatroomUnreadMessages msgs receiverUid).length = 0
    · rw [if_pos hif]
      try rw [receiver_onCreate_eq, hif.1]
      try simp [hif.2, getNewMessageCount]
    · rw [if_neg hif]

/-- C4: on an existing chatroom copy with a stored last message timestamp,
both onCreate updaters leave the stored timestamp at the maximum of the old
value and the incoming one (so it never regresses), and when the incoming
message is not strictly newer the sender copy is not written at all and the
receiver copy keeps its last message text. -/
theorem C4_last_message_monotonic
    (senderUid senderName senderUserPicUrl receiverUid receiverName receiverUserPicUrl : String)
    (ts : Nat) (text : String) (msgs : List Message) (c : Chatroom) (t : Nat)
    (h : c.lastMessageTimestamp = some t) :
    (getUpdateSenderChatroomOnCreate receiverUid receiverName receiverUserPicUrl ts text
        (some c)).chatroom.lastMessageTimestamp = some (max t ts)
    ∧ (getUpdateReceiverChatroomOnCreate senderUid senderName senderUserPicUrl receiverUid
        ts text msgs (some c)).chatroom.lastMessageTimestamp = some (max t ts)
    ∧ (ts ≤ t →
        getUpdateSenderChatroomOnCreate receiverUid receiverName receiverUserPicUrl ts text
          (some c) = ⟨c, false⟩
        ∧ (getUpdateReceiverChatroomOnCreate senderUid senderName senderUserPicUrl receiverUid
            ts text msgs (some c)).chatroom.lastMessageText = c.lastMessageText) := by
  rw [sender_onCreate_eq, receiver_onCreate_eq]
  by_cases hlt : t < ts
  · have hmax : max t ts = ts := Nat.max_eq_right (Nat.le_of_lt hlt)
    refine ⟨?_, ?_, ?_⟩
    · simp [h, hlt, hmax]
    · by_cases hc1 : (some (getReceiverChatroomUnreadMessages msgs receiverUid).length
          != c.newMessageCount) = true
      · simp [h, hlt, hmax, hc1]
      · simp [h, hlt, hmax, hc1]
    · intro hle
      exact absurd hlt (Nat.not_lt.mpr hle)
  · have hmax : max t ts = t := Nat.max_eq_left (Nat.le_of_not_lt hlt)
    refine ⟨?_, ?_, fun _ => ⟨?_, ?_⟩⟩
    · simp [h, hlt, hmax]
    · by_cases hc1 : (some (getReceiverChatroomUnreadMessages msgs receiverUid).length
          != c.newMessageCount) = true
      · simp [h, hlt, hmax, hc1]
      · simp [h, hlt, hmax, hc1]
    · simp [h, hlt]
    · by_cases hc1 : (some (getReceiverChatroomUnreadMessages msgs receiverUid).length
          != c.newMessageCount) = true
      · simp [h, hlt, hc1]
      · simp [h, hlt, hc1]

/-- Witness for C4: an existing copy with stored timestamp 7 and an older
incoming message with timestamp 5. -/
theorem C4_last_message_monotonic_witness :
    (getUpdateSenderChatroomOnCreate "r" "Rae" "rpic" 5 "old"
        (some ⟨"r", "Rae", "rpic", some "new", some 7, none⟩)).chatroom.lastMessageTimestamp
      = some (max 7 5)
    ∧ (getUpdateReceiverChatroomOnCreate "s" "Sam" "spic" "r" 5 "old" []
        (some ⟨"r", "Rae", "rpic", some "new", some 7, none⟩)).chatroom.lastMessageTimestamp
      = some (max 7 5)
    ∧ getUpdateSenderChatroomOnCreate "r" "Rae" "rpic" 5 "old"
        (some ⟨"r", "Rae", "rpic", some "new", some 7, none⟩)
      = ⟨⟨"r", "Rae", "rpic", some "new", some 7, none⟩, false⟩
    ∧ (getUpdateReceiverChatroomOnCreate "s" "Sam" "spic" "r" 5 "old" []
        (some ⟨"r", "Rae", "rpic", some "new", some 7, none⟩)).chatroom.lastMessageText
      = (⟨"r", "Rae", "rpic", some "new", some 7, none⟩ : Chatroom).lastMessageText :=
  have h := C4_last_message_monotonic "s" "Sam" "spic" "r" "Rae" "rpic" 5 "old" []
    ⟨"r", "Rae", "rpic", some "new", some 7, none⟩ 7 rfl
  ⟨h.1, h.2.1, (h.2.2 (by decide)).1, (h.2.2 (by decide)).2⟩

/-- The batched recursive delete removes every document when the batch size
is positive. -/
theorem deleteQueryBatch_snd_nil {α : Type} (b : Nat) (hb : 1 ≤ b) (coll : List α) :
    (deleteQueryBatch b coll).2 = [] := by
  generalize hn : coll.length = n
  induction n using Nat.strong_induction_on generalizing coll with
  | _ n ih =>
    rw [deleteQueryBatch]
    by_cases h : (coll.take b).length = 0
    · simp only [h, dite_true]
      simp only [List.length_take] at h
      have hzero : coll.length = 0 := by omega
      exact List.eq_nil_of_length_eq_zero hzero
    · simp only [h, dite_false]
      subst hn
      refine ih (coll.drop b).length ?_ (coll.drop b) rfl
      simp only [List.length_take] at h
      simp only [List.length_drop]
      omega

/-- The batched recursive delete issues at most one query per document plus
the final empty query. -/
theorem deleteQueryBatch_fst_le {α : Type} (b : Nat) (hb : 1 ≤ b) (coll : List α) :
    (deleteQueryBatch b coll).1 ≤ coll.length + 1 := by
  generalize hn : coll.length = n
  induction n using Nat.strong_induction_on generalizing coll with
  | _ n ih =>
    rw [deleteQueryBatch]
    by_cases h : (coll.take b).length = 0
    · simp only [h, dite_true]
      omega
    · simp only [h, dite_false]
      simp only [List.length_take] at h
      subst hn
      have hrec := ih (coll.drop b).length
        (by simp only [List.length_drop]; omega) (coll.drop b) rfl
      simp only [List.length_drop] at hrec
      omega

/-- C8 counterexample: on a one-document collection with batch size 100 the
code issues a second query after the short batch (two queries in total),
while a delete that treats the short batch as terminal stops after one
query; the short batch is not treated as a terminal state. -/
theorem C8_counterexample :
    (deleteCollection ([⟨"s", "r", "hi", 1, false⟩] : List Message)
        deleteCollectionBatchSize).1 = 2
    ∧ (deleteQueryBatchShortTerminal deleteCollectionBatchSize
        ([⟨"s", "r", "hi", 1, false⟩] : List Message)).1 = 1 := by
  constructor
  · rw [deleteCollection, deleteQueryBatch, deleteQueryBatch]
    simp [deleteCollectionBatchSize]
  · rw [deleteQueryBatchShortTerminal]
    simp [deleteCollectionBatchSize]

/-- C8 (amended): for every finite collection, the batched recursive delete
with batch size 100 terminates after finitely many queries — it stops only
when a query returns zero documents, issuing one further query after a batch
shorter than the requested size rather than treating that batch as terminal
— and on completion zero documents remain; at most one query per document
plus a final empty query is issued. -/
theorem C8_delete_collection_terminates_empty {α : Type} (coll : List α) :
    (deleteCollection coll deleteCollectionBatchSize).2 = []
    ∧ (deleteCollection coll deleteCollectionBatchSize).1 ≤ coll.length + 1 :=
  ⟨deleteQueryBatch_snd_nil deleteCollectionBatchSize (by decide) coll,
   deleteQueryBatch_fst_le deleteCollectionBatchSize (by decide) coll⟩

/-- C7: on deletion of a chatroom-of-user document, the shared messages
collection is deleted exactly when the counterpart user does not exist at
the re-read; when the counterpart exists the messages are left intact, and
when it does not, no message remains. -/
theorem C7_messages_deleted_iff_counterpart_gone (deletedChatroom : Chatroom)
    (usersExist : String → Bool) (messages : List Message) :
    ((onChatroomOfUserDelete deletedChatroom usersExist messages).2 = true
      ↔ usersExist deletedChatroom.secondUserUid = false)
    ∧ (usersExist deletedChatroom.secondUserUid = true →
        onChatroomOfUserDelete deletedChatroom usersExist messages = (messages, false))
    ∧ (usersExist deletedChatroom.secondUserUid = false →
        (onChatroomOfUserDelete deletedChatroom usersExist messages).1 = []) := by
  unfold onChatroomOfUserDelete
  cases h : usersExist deletedChatroom.secondUserUid with
  | true => simp [h]
  | false =>
    simp only [h, Bool.false_eq_true, if_false]
    refine ⟨by simp, by simp, fun _ => ?_⟩
    exact deleteQueryBatch_snd_nil deleteCollectionBatchSize (by decide) messages

/-- Witness for C7: with an existing counterpart the messages survive, with
a missing counterpart none remain. -/
theorem C7_messages_deleted_iff_counterpart_gone_witness :
    onChatroomOfUserDelete ⟨"u2", "Bea", "pic", some "hi", some 1, none⟩
        (fun _ => true) [⟨"u1", "u2", "hi", 1, false⟩]
      = ([⟨"u1", "u2", "hi", 1, false⟩], false)
    ∧ (onChatroomOfUserDelete ⟨"u2", "Bea", "pic", some "hi", some 1, none⟩
        (fun _ => false) [⟨"u1", "u2", "hi", 1, false⟩]).1 = [] :=
  ⟨(C7_messages_deleted_iff_counterpart_gone ⟨"u2", "Bea", "pic", some "hi", some 1, none⟩
      (fun _ => true) [⟨"u1", "u2", "hi", 1, false⟩]).2.1 rfl,
   (C7_messages_deleted_iff_counterpart_gone ⟨"u2", "Bea", "pic", some "hi", some 1, none⟩
      (fun _ => false) [⟨"u1", "u2", "hi", 1, false⟩]).2.2 rfl⟩

/-! ## findIndex lemmas -/

theorem findIndex_none_forall {α : Type} {p : α → Bool} :
    ∀ {l : List α}, findIndex p l = none → ∀ x ∈ l, ¬ p x = true := by
  intro l
  induction l with
  | nil => intro _ x hx; cases hx
  | cons a t ih =>
    intro h x hx
    by_cases hpa : p a = true
    · simp [findIndex, hpa] at h
    · simp only [findIndex, hpa, Bool.false_eq_true, if_false] at h
      cases hft : findIndex p t with
      | none =>
        cases hx with
        | head => exact hpa
        | tail _ hxt => exact ih hft x hxt
      | some j => rw [hft] at h; simp at h

theorem find?_eq_none_of_findIndex_none {α : Type} {p : α → Bool} :
    ∀ {l : List α}, findIndex p l = none → l.find? p = none := by
  intro l h
  rw [List.find?_eq_none]
  exact findIndex_none_forall h

theorem findIndex_some_get {α : Type} {p : α → Bool} :
    ∀ {l : List α} {i : Nat}, findIndex p l = some i →
      ∃ x, l[i]? = some x ∧ p x = true := by
  intro l
  induction l with
  | nil => intro i h; simp [findIndex] at h
  | cons a t ih =>
    intro i h
    by_cases hpa : p a = true
    · simp only [findIndex, hpa, if_true, Option.some.injEq] at h
      subst h
      exact ⟨a, by simp, hpa⟩
    · simp only [findIndex, hpa, Bool.false_eq_true, if_false] at h
      cases hft : findIndex p t with
      | none => rw [hft] at h; simp at h
      | some j =>
        rw [hft] at h
        simp only [Option.map_some', Option.some.injEq] at h
        subst h
        obtain ⟨x, hx, hpx⟩ := ih hft
        exact ⟨x, by simpa using hx, hpx⟩

theorem find?_set_of_findIndex {α : Type} {p : α → Bool} :
    ∀ {l : List α} {i : Nat} {e : α}, findIndex p l = some i → p e = true →
      (l.set i e).find? p = some e := by
  intro l
  induction l with
  | nil => intro i e h; simp [findIndex] at h
  | cons a t ih =>
    intro i e h hpe
    by_cases hpa : p a = true
    · simp only [findIndex, hpa, if_true, Option.some.injEq] at h
      subst h
      simp [List.find?_cons_of_pos, hpe]
    · simp only [findIndex, hpa, Bool.false_eq_true, if_false] at h
      cases hft : findIndex p t with
      | none => rw [hft] at h; simp at h
      | some j =>
        rw [hft] at h
        simp only [Option.map_some', Option.some.injEq] at h
        subst h
        rw [List.set_cons_succ, List.find?_cons_of_neg _ hpa]
        exact ih hft hpe

theorem find?_append_of_none {α : Type} {p : α → Bool} :
    ∀ {l : List α} {l₂ : List α}, l.find? p = none →
      (l ++ l₂).find? p = l₂.find? p := by
  intro l
  induction l with
  | nil => intro l₂ _; rfl
  | cons a t ih =>
    intro l₂ h
    by_cases hpa : p a = true
    · rw [List.find?_cons_of_pos _ hpa] at h; cases h
    · rw [List.find?_cons_of_neg _ hpa] at h
      rw [List.cons_append, List.find?_cons_of_neg _ hpa]
      exact ih h

theorem find?_eraseIdx_none {α : Type} {p : α → Bool} :
    ∀ {l : List α} {i : Nat}, findIndex p l = some i →
      l.Pairwise (fun a b => ¬(p a = true ∧ p b = true)) →
      (l.eraseIdx i).find? p = none := by
  intro l
  induction l with
  | nil => intro i h; simp [findIndex] at h
  | cons a t ih =>
    intro i h hpw
    rw [List.pairwise_cons] at hpw
    by_cases hpa : p a = true
    · simp only [findIndex, hpa, if_true, Option.some.injEq] at h
      subst h
      rw [List.eraseIdx_cons_zero, List.find?_eq_none]
      intro x hx hpx
      exact hpw.1 x hx ⟨hpa, hpx⟩
    · simp only [findIndex, hpa, Bool.false_eq_true, if_false] at h
      cases hft : findIndex p t with
      | none => rw [hft] at h; simp at h
      | some j =>
        rw [hft] at h
        simp only [Option.map_some', Option.some.injEq] at h
        subst h
        rw [List.eraseIdx_cons_succ, List.find?_cons_of_neg _ hpa]
        exact ih hft hpw.2

theorem filter_eraseIdx_not {α : Type} {p : α → Bool} :
    ∀ {l : List α} {i : Nat}, findIndex p l = some i →
      (l.eraseIdx i).filter (fun x => !p x) = l.filter (fun x => !p x) := by
  intro l
  induction l with
  | nil => intro i h; simp [findIndex] at h
  | cons a t ih =>
    intro i h
    by_cases hpa : p a = true
    · simp only [findIndex, hpa, if_true, Option.some.injEq] at h
      subst h
      rw [List.eraseIdx_cons_zero]
      simp [List.filter_cons, hpa]
    · simp only [findIndex, hpa, Bool.false_eq_true, if_false] at h
      cases hft : findIndex p t with
      | none => rw [hft] at h; simp at h
      | some j =>
        rw [hft] at h
        simp only [Option.map_some', Option.some.injEq] at h
        subst h
        rw [List.eraseIdx_cons_succ]
        simp only [List.filter_cons, hpa]
        rw [ih hft]

theorem filter_set_not {α : Type} {p : α → Bool} :
    ∀ {l : List α} {i : Nat} {e : α}, findIndex p l = some i → p e = true →
      (l.set i e).filter (fun x => !p x) = l.filter (fun x => !p x) := by
  intro l
  induction l with
  | nil => intro i e h; simp [findIndex] at h
  | cons a t ih =>
    intro i e h hpe
    by_cases hpa : p a = true
    · simp only [findIndex, hpa, if_true, Option.some.injEq] at h
      subst h
      rw [List.set_cons_zero]
      simp [List.filter_cons, hpa, hpe]
    · simp only [findIndex, hpa, Bool.false_eq_true, if_false] at h
      cases hft : findIndex p t with
      | none => rw [hft] at h; simp at h
      | some j =>
        rw [hft] at h
        simp only [Option.map_some', Option.some.injEq] at h
        subst h
        rw [List.set_cons_succ]
        simp only [List.filter_cons, hpa]
        rw [ih hft hpe]

/-- An absent offer rating list behaves like the empty list. -/
theorem recalc_none_eq_some_nil (snapshot : List Review) (offerUid : String) :
    recalculateOfferRatings snapshot none offerUid
      = recalculateOfferRatings snapshot (some []) offerUid := rfl

/-- With a nonempty review snapshot, the rebuilt list holds exactly the
recomputed entry for the target offer. -/
theorem recalc_nonempty_find (latestReview : Review) (rest : List Review)
    (l : List OfferRating) (offerUid : String) :
    (recalculateOfferRatings (latestReview :: rest) (some l) offerUid).find?
        (fun e => e.offer_uid == offerUid)
      = some ⟨offerUid,
          ((latestReview :: rest).map Review.rating).sum / ((rest.length + 1 : Nat) : ℚ),
          rest.length + 1, latestReview.authorName, latestReview.authorUserPicUrl,
          latestReview.text, latestReview.timestamp⟩ := by
  unfold recalculateOfferRatings
  cases hidx : findIndex (fun item => item.offer_uid == offerUid) l with
  | some i =>
    obtain ⟨old, hget, hpold⟩ := findIndex_some_get hidx
    simp only [hidx, hget]
    have huid : old.offer_uid = offerUid := eq_of_beq hpold
    subst huid
    refine find?_set_of_findIndex hidx ?_
    exact hpold
  | none =>
    simp only [hidx]
    rw [find?_append_of_none (find?_eq_none_of_findIndex_none hidx)]
    rw [List.find?_cons_of_pos]
    exact beq_self_eq_true offerUid

/-- With an empty review snapshot and distinct keys, no entry for the target
offer remains. -/
theorem recalc_empty_find (l : List OfferRating) (offerUid : String)
    (hpw : l.Pairwise (fun a b => a.offer_uid ≠ b.offer_uid)) :
    (recalculateOfferRatings [] (some l) offerUid).find?
        (fun e => e.offer_uid == offerUid) = none := by
  unfold recalculateOfferRatings
  cases hidx : findIndex (fun item => item.offer_uid == offerUid) l with
  | some i =>
    simp only [hidx]
    refine find?_eraseIdx_none hidx (hpw.imp ?_)
    intro a b hne hab
    exact hne ((eq_of_beq hab.1).trans (eq_of_beq hab.2).symm)
  | none =>
    simp only [hidx]
    exact find?_eq_none_of_findIndex_none hidx

/-- C5: with the full review set for an offer ordered newest first, the
rebuilt rating list holds an entry for that offer whose count is the number
of reviews, whose rating is the sum of the ratings divided by the count, and
whose latest-review snippet fields come from the first, newest review; with
an empty review set (and one entry per offer) the entry for that offer is
removed. -/
theorem C5_recalculate_entry_correct :
    (∀ (latestReview : Review) (rest : List Review)
        (offerRatingList : Option (List OfferRating)) (offerUid : String),
      (recalculateOfferRatings (latestReview :: rest) offerRatingList offerUid).find?
          (fun e => e.offer_uid == offerUid)
        = some ⟨offerUid,
            ((latestReview :: rest).map Review.rating).sum / ((rest.length + 1 : Nat) : ℚ),
            rest.length + 1, latestReview.authorName, latestReview.authorUserPicUrl,
            latestReview.text, latestReview.timestamp⟩)
    ∧ (∀ (offerRatingList : Option (List OfferRating)) (offerUid : String),
        (offerRatingList.getD []).Pairwise (fun a b => a.offer_uid ≠ b.offer_uid) →
        (recalculateOfferRatings [] offerRatingList offerUid).find?
            (fun e => e.offer_uid == offerUid) = none) := by
  constructor
  · intro latestReview rest orl offerUid
    cases orl with
    | none =>
      rw [recalc_none_eq_some_nil]
      exact recalc_nonempty_find latestReview rest [] offerUid
    | some l => exact recalc_nonempty_find latestReview rest l offerUid
  · intro orl offerUid hpw
    cases orl with
    | none =>
      rw [recalc_none_eq_some_nil]
      exact recalc_empty_find [] offerUid (by simp)
    | some l => exact recalc_empty_find l offerUid (by simpa using hpw)

/-- Witness for C5: a first review creates the entry; deleting the only
review removes the entry. -/
theorem C5_recalculate_entry_correct_witness :
    (recalculateOfferRatings [⟨5, "Ann", "apic", "great", 10⟩] none "off1").find?
        (fun e => e.offer_uid == "off1")
      = some ⟨"off1",
          (([⟨5, "Ann", "apic", "great", 10⟩] : List Review).map Review.rating).sum
            / (((List.length ([] : List Review)) + 1 : Nat) : ℚ),
          (List.length ([] : List Review)) + 1, "Ann", "apic", "great", 10⟩
    ∧ (recalculateOfferRatings []
        (some [⟨"off1", 5, 1, "Ann", "apic", "great", 10⟩]) "off1").find?
        (fun e => e.offer_uid == "off1") = none :=
  ⟨C5_recalculate_entry_correct.1 ⟨5, "Ann", "apic", "great", 10⟩ [] none "off1",
   C5_recalculate_entry_correct.2 (some [⟨"off1", 5, 1, "Ann", "apic", "great", 10⟩]) "off1"
     (by simp)⟩

/-- The rebuilt list agrees with the original on every key other than the
target offer, in order. -/
theorem recalc_filter_frame (snapshot : List Review) (l : List OfferRating)
    (offerUid : String) :
    (recalculateOfferRatings snapshot (some l) offerUid).filter
        (fun e => !(e.offer_uid == offerUid))
      = l.filter (fun e => !(e.offer_uid == offerUid)) := by
  cases snapshot with
  | nil =>
    unfold recalculateOfferRatings
    cases hidx : findIndex (fun item => item.offer_uid == offerUid) l with
    | some i =>
      simp only [hidx]
      exact filter_eraseIdx_not hidx
    | none => simp only [hidx]
  | cons latestReview rest =>
    unfold recalculateOfferRatings
    cases hidx : findIndex (fun item => item.offer_uid == offerUid) l with
    | some i =>
      obtain ⟨old, hget, hpold⟩ := findIndex_some_get hidx
      simp only [hidx, hget]
      refine filter_set_not hidx ?_
      exact hpold
    | none =>
      simp only [hidx]
      rw [List.filter_append]
      have hsingle : ([(⟨offerUid,
          ((latestReview :: rest).map Review.rating).sum / ((rest.length + 1 : Nat) : ℚ),
          rest.length + 1, latestReview.authorName, latestReview.authorUserPicUrl,
          latestReview.text, latestReview.timestamp⟩ : OfferRating)]).filter
          (fun e => !(e.offer_uid == offerUid)) = [] := by
        simp
      rw [hsingle, List.append_nil]

/-- C6: the rebuilt offer rating list leaves every entry keyed by a
different offer unchanged and in its original relative order; only the
entry of the target offer is replaced, appended or removed. -/
theorem C6_recalculate_frame (snapshot : List Review)
    (offerRatingList : Option (List OfferRating)) (offerUid : String) :
    (recalculateOfferRatings snapshot offerRatingList offerUid).filter
        (fun e => !(e.offer_uid == offerUid))
      = (offerRatingList.getD []).filter (fun e => !(e.offer_uid == offerUid)) := by
  cases offerRatingList with
  | none =>
    rw [recalc_none_eq_some_nil]
    exact recalc_filter_frame snapshot [] offerUid
  | some l => exact recalc_filter_frame snapshot l offerUid

/-! ## Chatroom key lemmas -/

/-- The chatroom key is order independent. -/
theorem getChatroomUid_comm (a b : String) : getChatroomUid a b = getChatroomUid b a := by
  unfold getChatroomUid
  rcases lt_trichotomy a b with h | h | h
  · rw [if_pos h, if_neg (lt_asymm h)]
  · subst h
    rfl
  · rw [if_neg (lt_asymm h), if_pos h]

/-- Splitting a separator-free prefix off a separator is unambiguous. -/
theorem noSep_append_inj :
    ∀ (l₁ r₁ l₂ r₂ : List Char), '_' ∉ l₁ → '_' ∉ l₂ →
      l₁ ++ '_' :: r₁ = l₂ ++ '_' :: r₂ → l₁ = l₂ ∧ r₁ = r₂ := by
  intro l₁
  induction l₁ with
  | nil =>
    intro r₁ l₂ r₂ h₁ h₂ h
    cases l₂ with
    | nil =>
      simp only [List.nil_append, List.cons.injEq] at h
      exact ⟨rfl, h.2⟩
    | cons b t =>
      simp only [List.nil_append, List.cons_append, List.cons.injEq] at h
      rw [← h.1] at h₂
      exact absurd (List.mem_cons_self _ _) h₂
  | cons a t ih =>
    intro r₁ l₂ r₂ h₁ h₂ h
    cases l₂ with
    | nil =>
      simp only [List.nil_append, List.cons_append, List.cons.injEq] at h
      rw [h.1] at h₁
      exact absurd (List.mem_cons_self _ _) h₁
    | cons b t₂ =>
      simp only [List.cons_append, List.cons.injEq] at h
      obtain ⟨hab, hrest⟩ := h
      subst hab
      have h₁t : '_' ∉ t := fun hm => h₁ (List.mem_cons_of_mem a hm)
      have h₂t : '_' ∉ t₂ := fun hm => h₂ (List.mem_cons_of_mem a hm)
      obtain ⟨he, hr⟩ := ih r₁ t₂ r₂ h₁t h₂t hrest
      exact ⟨by rw [he], hr⟩

/-- Concatenation through the separator is injective on separator-free
strings. -/
theorem append_sep_inj (a b c d : String)
    (ha : '_' ∉ a.data) (hc : '_' ∉ c.data)
    (h : a ++ "_" ++ b = c ++ "_" ++ d) : a = c ∧ b = d := by
  have hsep : ("_" : String).data = ['_'] := rfl
  have hdata : a.data ++ '_' :: b.data = c.data ++ '_' :: d.data := by
    have hd := congrArg String.data h
    simpa [String.data_append, hsep] using hd
  obtain ⟨h1, h2⟩ := noSep_append_inj a.data b.data c.data d.data ha hc hdata
  exact ⟨String.ext h1, String.ext h2⟩

/-- The chatroom key separates distinct unordered pairs of separator-free
identifiers. -/
theorem getChatroomUid_inj (a b c d : String)
    (ha : '_' ∉ a.data) (hb : '_' ∉ b.data) (hc : '_' ∉ c.data) (hd : '_' ∉ d.data)
    (h : getChatroomUid a b = getChatroomUid c d) :
    (a = c ∧ b = d) ∨ (a = d ∧ b = c) := by
  unfold getChatroomUid at h
  by_cases h1 : a < b <;> by_cases h2 : c < d
  · rw [if_pos h1, if_pos h2] at h
    exact Or.inl (append_sep_inj a b c d ha hc h)
  · rw [if_pos h1, if_neg h2] at h
    exact Or.inr (append_sep_inj a b d c ha hd h)
  · rw [if_neg h1, if_pos h2] at h
    obtain ⟨e1, e2⟩ := append_sep_inj b a c d hb hc h
    exact Or.inr ⟨e2, e1⟩
  · rw [if_neg h1, if_neg h2] at h
    obtain ⟨e1, e2⟩ := append_sep_inj b a d c hb hd h
    exact Or.inl ⟨e2, e1⟩

/-- C3 counterexample: the distinct unordered pairs ("x", "y_z") and
("x_y", "z") collide on the same key "x_y_z", because identifiers may
themselves contain the separator. -/
theorem C3_counterexample :
    getChatroomUid "x" "y_z" = getChatroomUid "x_y" "z"
    ∧ ¬(("x" : String) = "x_y" ∧ ("y_z" : String) = "z")
    ∧ ¬(("x" : String) = "z" ∧ ("y_z" : String) = "x_y") := by
  have h1 : ("x" : String) < "y_z" := by
    rw [String.lt_iff_toList_lt]; decide
  have h2 : ("x_y" : String) < "z" := by
    rw [String.lt_iff_toList_lt]; decide
  refine ⟨?_, by decide, by decide⟩
  unfold getChatroomUid
  rw [if_pos h1, if_pos h2]
  decide

/-- C3 (amended): the key derivation is pure and commutative for all
identifier pairs, and collision free for distinct unordered pairs of
identifiers that do not contain the separator character. -/
theorem C3_key_commutative_injective_amended :
    (∀ a b : String, getChatroomUid a b = getChatroomUid b a)
    ∧ (∀ a b c d : String,
        '_' ∉ a.data → '_' ∉ b.data → '_' ∉ c.data → '_' ∉ d.data →
        getChatroomUid a b = getChatroomUid c d →
        (a = c ∧ b = d) ∨ (a = d ∧ b = c)) :=
  ⟨getChatroomUid_comm, getChatroomUid_inj⟩

/-- Witness for C3 (amended): concrete commutativity and injectivity
instances on separator-free identifiers. -/
theorem C3_key_commutative_injective_amended_witness :
    getChatroomUid "u1" "u2" = getChatroomUid "u2" "u1"
    ∧ ((("u1" : String) = "u1" ∧ ("u2" : String) = "u2")
        ∨ (("u1" : String) = "u2" ∧ ("u2" : String) = "u1")) :=
  ⟨C3_key_commutative_injective_amended.1 "u1" "u2",
   C3_key_commutative_injective_amended.2 "u1" "u2" "u1" "u2"
     (by decide) (by decide) (by decide) (by decide) rfl⟩

end HiveCloud
